import Mathlib

/-!
Verification development for the RustableDroneLib packet-routing engine.

The Rust sources (src/drone.rs, src/drone_settings.rs, src/packets_filter.rs,
src/controller_commands.rs) are shallowly embedded below.  Machine integers
(u8 node ids, u64 session/flood/fragment ids) are modelled as Nat: the engine
only compares them for equality and never performs arithmetic on them, so no
overflow is observable.  Channel sends are modelled as emitted Output values;
a Rust panic is modelled as Except.error carrying a Panic tag naming the
panicking site.  The probabilistic drop roll (thread_rng().gen_bool) is an
oracle Bool parameter.  Real-time sleeping and stdout logging have no effect
on the observable outputs and are not tracked.
-/

/-- A network participant id (u8 in the source). -/
abbrev NodeId := Nat

/-- wg_2024 SourceRoutingHeader: an ordered hop list with a cursor. -/
structure SourceRoutingHeader where
  hop_index : Nat
  hops : List NodeId
deriving Repr, DecidableEq

namespace SourceRoutingHeader

/-- Modelled from the spec: the wg_2024 crate is an external collaborator whose
sources are not part of this repository.  The previous hop is the hop before
the cursor, when the cursor is positive. -/
def previous_hop (h : SourceRoutingHeader) : Option NodeId :=
  if h.hop_index = 0 then none else h.hops[h.hop_index - 1]?

/-- Modelled from the spec: the next hop is the hop after the cursor, when it
exists. -/
def next_hop (h : SourceRoutingHeader) : Option NodeId :=
  h.hops[h.hop_index + 1]?

/-- Modelled from the spec: a header is at its last hop when the cursor sits on
the final element of the hop list. -/
def is_last_hop (h : SourceRoutingHeader) : Bool :=
  h.hop_index + 1 == h.hops.length

/-- Modelled from the spec: reversing a header keeps the path already traveled
(the hops up to and including the cursor), reversed, and resets the cursor to
the start; callers that route a response bump the cursor to 1 afterwards,
skipping the responder own position at the head of the reversed route. -/
def get_reversed (h : SourceRoutingHeader) : SourceRoutingHeader :=
  { hop_index := 0, hops := (h.hops.take (h.hop_index + 1)).reverse }

end SourceRoutingHeader

/-- The reversed header of the spec, section 3: the traveled hop sequence
reversed with the cursor reset to index 1. -/
def reversedHeader (h : SourceRoutingHeader) : SourceRoutingHeader :=
  { hop_index := 1, hops := (h.hops.take (h.hop_index + 1)).reverse }

/-- wg_2024 NodeType. -/
inductive NodeType
  | Client
  | Drone
  | Server
deriving Repr, DecidableEq

/-- wg_2024 NackType. -/
inductive NackType
  | Dropped
  | DestinationIsDrone
  | ErrorInRouting (id : NodeId)
  | UnexpectedRecipient (id : NodeId)
deriving Repr, DecidableEq

/-- wg_2024 Ack payload. -/
structure Ack where
  fragment_index : Nat
deriving Repr, DecidableEq

/-- wg_2024 Nack payload. -/
structure Nack where
  fragment_index : Nat
  nack_type : NackType
deriving Repr, DecidableEq

/-- wg_2024 Fragment payload; the 128-byte data array is a list of byte
values. -/
structure Fragment where
  fragment_index : Nat
  total_n_fragments : Nat
  length : Nat
  data : List Nat
deriving Repr, DecidableEq

/-- wg_2024 FloodRequest payload. -/
structure FloodRequest where
  flood_id : Nat
  initiator_id : NodeId
  path_trace : List (NodeId × NodeType)
deriving Repr, DecidableEq

/-- wg_2024 FloodResponse payload. -/
structure FloodResponse where
  flood_id : Nat
  path_trace : List (NodeId × NodeType)
deriving Repr, DecidableEq

/-- wg_2024 PacketType: the five packet kinds. -/
inductive PacketType
  | MsgFragment (f : Fragment)
  | Ack (a : Ack)
  | Nack (n : Nack)
  | FloodRequest (r : FloodRequest)
  | FloodResponse (r : FloodResponse)
deriving Repr, DecidableEq

/-- wg_2024 Packet. -/
structure Packet where
  routing_header : SourceRoutingHeader
  session_id : Nat
  pack_type : PacketType
deriving Repr, DecidableEq

/-- True when the packet payload is a FloodRequest (the only kind exempt from
header validation). -/
def Packet.isFloodReq (p : Packet) : Bool :=
  match p.pack_type with
  | .FloodRequest _ => true
  | _ => false

/-- drone_settings.rs DroneSettings.  Duration is modelled as a Nat tick
count; it only gates a sleep with no observable output. -/
structure DroneSettings where
  log_to_stdout : Bool
  sleep_duration : Nat
  await_queued_packets_on_crash : Bool
  filter_packets : Bool
  send_nack_on_filtered_packet : Bool
  quack : Bool
deriving Repr, DecidableEq

/-- drone_settings.rs Default for DroneSettings. -/
def DroneSettings.default : DroneSettings :=
  { log_to_stdout := false
    sleep_duration := 0
    await_queued_packets_on_crash := true
    filter_packets := true
    send_nack_on_filtered_packet := false
    quack := false }

/-- packets_filter.rs FilterType. -/
inductive FilterType
  | BlackList
  | WhiteList
deriving Repr, DecidableEq

/-- packets_filter.rs PacketFilter. -/
structure PacketFilter where
  list : List NodeId
  filter_type : FilterType
deriving Repr, DecidableEq

namespace PacketFilter

/-- packets_filter.rs Default for PacketFilter: an empty BlackList. -/
def default : PacketFilter := { list := [], filter_type := .BlackList }

/-- packets_filter.rs PacketFilter::is_allowed. -/
def is_allowed (f : PacketFilter) (id : NodeId) : Bool :=
  match f.filter_type with
  | .BlackList => !(f.list.contains id)
  | .WhiteList => f.list.contains id

/-- packets_filter.rs PacketFilter::add. -/
def add (f : PacketFilter) (id : NodeId) : PacketFilter :=
  if f.list.contains id then f else { f with list := f.list ++ [id] }

/-- packets_filter.rs PacketFilter::remove. -/
def remove (f : PacketFilter) (id : NodeId) : PacketFilter :=
  match f.list.indexOf? id with
  | none => f
  | some i => { f with list := f.list.eraseIdx i }

/-- packets_filter.rs PacketFilter::clear. -/
def clear (f : PacketFilter) : PacketFilter := { f with list := [] }

end PacketFilter

/-- The drone state of drone.rs: packet_send is the key set of the neighbor
channel map (the channel endpoints live in the environment; a send over the
channel keyed k is recorded as an Output).  The f32 drop_rate only feeds the
Bernoulli roll, which is an oracle parameter of the fragment handler, so it
is not part of the observable state. -/
structure RustableDrone where
  id : NodeId
  packet_send : List NodeId
  settings : DroneSettings
  filter : PacketFilter
  flood_ids : List Nat
  has_to_crash : Bool
deriving Repr, DecidableEq

/-- An observable effect of a handler: a packet sent over a neighbor channel,
or a DroneEvent::ControllerShortcut sent to the controller. -/
inductive Output
  | send (dest : NodeId) (p : Packet)
  | shortcut (p : Packet)
deriving Repr, DecidableEq

/-- A Rust panic site in drone.rs. -/
inductive Panic
  | hopIndexTooSmall
  | hopIndexTooBig
  | prevHopUnwrap
  | nextHopUnwrap
  | hopsIndexPanic
  | noNackChannel
  | channelUnwrap
  | emptyTraceIndex
  | recvError
deriving Repr, DecidableEq

/-- The byte values of the ASCII string QUACK. -/
def quackBytes : List Nat := [81, 85, 65, 67, 75]

/-- drone.rs lines 188 to 194: overwrite every data byte with the repeating
QUACK marker. -/
def quackData (data : List Nat) : List Nat :=
  (List.range data.length).map (fun i => quackBytes.getD (i % quackBytes.length) 0)

/-- u64::MAX, the fragment index used for FloodResponse failure nacks. -/
def u64MAX : Nat := 2 ^ 64 - 1

namespace RustableDrone

/-- drone.rs RustableDrone::send_nack: build a Nack addressed with the
reversed header bumped to cursor 1 and send it back over the channel to
from_; the channel lookup unwrap panics when the channel is absent. -/
def send_nack (s : RustableDrone) (from_ : NodeId) (nacked_packet : Packet)
    (fragment_index : Nat) (nack_type : NackType) : Except Panic Output :=
  let rev0 := nacked_packet.routing_header.get_reversed
  let rev_header : SourceRoutingHeader := { rev0 with hop_index := rev0.hop_index + 1 }
  if s.packet_send.contains from_ then
    .ok (.send from_
      { routing_header := rev_header
        session_id := nacked_packet.session_id
        pack_type := .Nack { fragment_index := fragment_index, nack_type := nack_type } })
  else .error .channelUnwrap

/-- drone.rs RustableDrone::send_nack_through_controller: build a Nack
addressed with the reversed header (cursor not bumped) and deliver it to the
controller as a ControllerShortcut event. -/
def send_nack_through_controller (nacked_packet : Packet)
    (fragment_index : Nat) (nack_type : NackType) : Output :=
  .shortcut
    { routing_header := nacked_packet.routing_header.get_reversed
      session_id := nacked_packet.session_id
      pack_type := .Nack { fragment_index := fragment_index, nack_type := nack_type } }

/-- drone.rs RustableDrone::msg_fragment_handler, lines 110 to 220.  The
checks run in source order: last hop, next-hop lookup, drop roll, filter,
missing next-hop channel, unexpected recipient; then quack, forward with the
cursor advanced by one.  dropRoll is the oracle outcome of the Bernoulli
trial gen_bool(drop_rate). -/
def msg_fragment_handler (s : RustableDrone) (dropRoll : Bool)
    (packet : Packet) (fragment : Fragment) : Except Panic (List Output) :=
  match packet.routing_header.previous_hop with
  | none => .error .prevHopUnwrap
  | some from_ =>
    if packet.routing_header.is_last_hop then
      if s.packet_send.contains from_ then
        (s.send_nack from_ packet fragment.fragment_index .DestinationIsDrone).map (fun o => [o])
      else .error .noNackChannel
    else
      match packet.routing_header.next_hop with
      | none => .error .nextHopUnwrap
      | some to_ =>
        if dropRoll then
          if s.packet_send.contains from_ then
            (s.send_nack from_ packet fragment.fragment_index .Dropped).map (fun o => [o])
          else .error .noNackChannel
        else if s.settings.filter_packets && !(s.filter.is_allowed from_) then
          if s.settings.send_nack_on_filtered_packet then
            if s.packet_send.contains from_ then
              (s.send_nack from_ packet fragment.fragment_index .Dropped).map (fun o => [o])
            else .error .noNackChannel
          else .ok []
        else if !(s.packet_send.contains to_) then
          if s.packet_send.contains from_ then
            (s.send_nack from_ packet fragment.fragment_index (.ErrorInRouting to_)).map (fun o => [o])
          else .error .noNackChannel
        else
          match packet.routing_header.hops[packet.routing_header.hop_index]? with
          | none => .error .hopsIndexPanic
          | some cur =>
            if cur != s.id then
              if s.packet_send.contains from_ then
                (s.send_nack from_ packet fragment.fragment_index (.UnexpectedRecipient s.id)).map (fun o => [o])
              else .error .noNackChannel
            else
              let fragment' :=
                if s.settings.quack then { fragment with data := quackData fragment.data }
                else fragment
              let header : SourceRoutingHeader :=
                { packet.routing_header with hop_index := packet.routing_header.hop_index + 1 }
              .ok [.send to_
                { routing_header := header
                  session_id := packet.session_id
                  pack_type := .MsgFragment fragment' }]

/-- drone.rs RustableDrone::nack_handler, lines 222 to 287: same skeleton as
the fragment handler but with no drop roll and no filter, and failures are
reported to the controller as shortcut events. -/
def nack_handler (s : RustableDrone) (packet : Packet) (nack : Nack) :
    Except Panic (List Output) :=
  match packet.routing_header.previous_hop with
  | none => .error .prevHopUnwrap
  | some from_ =>
    if packet.routing_header.is_last_hop then
      if s.packet_send.contains from_ then
        .ok [send_nack_through_controller packet nack.fragment_index .DestinationIsDrone]
      else .error .noNackChannel
    else
      match packet.routing_header.next_hop with
      | none => .error .nextHopUnwrap
      | some to_ =>
        if !(s.packet_send.contains to_) then
          if s.packet_send.contains from_ then
            .ok [send_nack_through_controller packet nack.fragment_index (.ErrorInRouting to_)]
          else .error .noNackChannel
        else
          match packet.routing_header.hops[packet.routing_header.hop_index]? with
          | none => .error .hopsIndexPanic
          | some cur =>
            if cur != s.id then
              if s.packet_send.contains from_ then
                .ok [send_nack_through_controller packet nack.fragment_index (.UnexpectedRecipient s.id)]
              else .error .noNackChannel
            else
              .ok [.send to_
                { packet with routing_header :=
                    { packet.routing_header with
                        hop_index := packet.routing_header.hop_index + 1 } }]

/-- drone.rs RustableDrone::ack_handler, lines 289 to 354: like the nack
handler, but from and to are read by direct indexing into hops (panicking
when out of bounds) instead of through the option-returning helpers. -/
def ack_handler (s : RustableDrone) (packet : Packet) (ack : Ack) :
    Except Panic (List Output) :=
  if packet.routing_header.hop_index = 0 then .error .hopsIndexPanic
  else
    match packet.routing_header.hops[packet.routing_header.hop_index - 1]? with
    | none => .error .hopsIndexPanic
    | some from_ =>
      if packet.routing_header.is_last_hop then
        if s.packet_send.contains from_ then
          .ok [send_nack_through_controller packet ack.fragment_index .DestinationIsDrone]
        else .error .noNackChannel
      else
        match packet.routing_header.hops[packet.routing_header.hop_index + 1]? with
        | none => .error .hopsIndexPanic
        | some to_ =>
          if !(s.packet_send.contains to_) then
            if s.packet_send.contains from_ then
              .ok [send_nack_through_controller packet ack.fragment_index (.ErrorInRouting to_)]
            else .error .noNackChannel
          else
            match packet.routing_header.hops[packet.routing_header.hop_index]? with
            | none => .error .hopsIndexPanic
            | some cur =>
              if cur != s.id then
                if s.packet_send.contains from_ then
                  .ok [send_nack_through_controller packet ack.fragment_index (.UnexpectedRecipient s.id)]
                else .error .noNackChannel
              else
                .ok [.send to_
                  { packet with routing_header :=
                      { packet.routing_header with
                          hop_index := packet.routing_header.hop_index + 1 } }]

/-- drone.rs RustableDrone::flood_res_handler, lines 465 to 533: the last-hop
condition is hop_index equal to the full hops length, and the failure nacks
carry u64::MAX as fragment index. -/
def flood_res_handler (s : RustableDrone) (packet : Packet) :
    Except Panic (List Output) :=
  if packet.routing_header.hop_index = 0 then .error .hopsIndexPanic
  else
    match packet.routing_header.hops[packet.routing_header.hop_index - 1]? with
    | none => .error .hopsIndexPanic
    | some from_ =>
      if packet.routing_header.hop_index = packet.routing_header.hops.length then
        if s.packet_send.contains from_ then
          .ok [send_nack_through_controller packet u64MAX .DestinationIsDrone]
        else .error .noNackChannel
      else
        match packet.routing_header.hops[packet.routing_header.hop_index + 1]? with
        | none => .error .hopsIndexPanic
        | some to_ =>
          if !(s.packet_send.contains to_) then
            if s.packet_send.contains from_ then
              .ok [send_nack_through_controller packet u64MAX (.ErrorInRouting to_)]
            else .error .noNackChannel
          else
            match packet.routing_header.hops[packet.routing_header.hop_index]? with
            | none => .error .hopsIndexPanic
            | some cur =>
              if cur != s.id then
                if s.packet_send.contains from_ then
                  .ok [send_nack_through_controller packet u64MAX (.UnexpectedRecipient s.id)]
                else .error .noNackChannel
              else
                .ok [.send to_
                  { packet with routing_header :=
                      { packet.routing_header with
                          hop_index := packet.routing_header.hop_index + 1 } }]

/-- drone.rs RustableDrone::flood_req_handler, lines 356 to 463: read the
sender from the last path_trace entry (panicking on an empty trace), append
the own id, then either answer with a FloodResponse (already-seen flood_id or
exactly one neighbor) or record the flood_id and fan the request out to every
neighbor except the sender with a default (empty) routing header. -/
def flood_req_handler (s : RustableDrone) (packet : Packet)
    (request : FloodRequest) : Except Panic (RustableDrone × List Output) :=
  match request.path_trace.getLast? with
  | none => .error .emptyTraceIndex
  | some last =>
    let from_ : NodeId := last.1
    let request' : FloodRequest :=
      { request with path_trace := request.path_trace ++ [(s.id, NodeType.Drone)] }
    let rev_route : List NodeId := (request'.path_trace.map Prod.fst).reverse
    let response : Packet :=
      { pack_type := .FloodResponse
          { flood_id := request'.flood_id, path_trace := request'.path_trace }
        routing_header := { hop_index := 1, hops := rev_route }
        session_id := packet.session_id }
    if s.flood_ids.contains request'.flood_id then
      if s.packet_send.contains from_ then .ok (s, [.send from_ response])
      else .error .channelUnwrap
    else if s.packet_send.length = 1 then
      if s.packet_send.contains from_ then .ok (s, [.send from_ response])
      else .error .channelUnwrap
    else
      let s' := { s with flood_ids := s.flood_ids ++ [request'.flood_id] }
      .ok (s', (s.packet_send.filter (fun k => k != from_)).map
        (fun k => .send k
          { routing_header := { hop_index := 0, hops := [] }
            session_id := packet.session_id
            pack_type := .FloodRequest request' }))

/-- drone.rs RustableDrone::packet_handler, lines 86 to 108: validate the
cursor bounds for every non-FloodRequest packet (panicking on violation),
then dispatch on the payload kind. -/
def packet_handler (s : RustableDrone) (dropRoll : Bool) (packet : Packet) :
    Except Panic (RustableDrone × List Output) :=
  if packet.routing_header.hop_index < 1 && !packet.isFloodReq then
    .error .hopIndexTooSmall
  else if decide (packet.routing_header.hops.length < packet.routing_header.hop_index)
      && !packet.isFloodReq then
    .error .hopIndexTooBig
  else
    match packet.pack_type with
    | .Nack n => (s.nack_handler packet n).map (fun outs => (s, outs))
    | .Ack a => (s.ack_handler packet a).map (fun outs => (s, outs))
    | .MsgFragment f => (s.msg_fragment_handler dropRoll packet f).map (fun outs => (s, outs))
    | .FloodRequest r => s.flood_req_handler packet r
    | .FloodResponse _ => (s.flood_res_handler packet).map (fun outs => (s, outs))

/-- drone.rs run, lines 64 to 67: the inner while loop of the crash branch
services, non-blocking, every packet currently buffered in the packet inlet.
The third component counts the serviced packets.  rolls feeds one Bernoulli
outcome per packet. -/
def drain : RustableDrone → List Bool → List Packet →
    Except Panic (RustableDrone × List Output × Nat)
  | s, _, [] => .ok (s, [], 0)
  | s, rolls, p :: rest =>
    match s.packet_handler (rolls.headD false) p with
    | .error e => .error e
    | .ok (s', outs) =>
      match drain s' rolls.tail rest with
      | .error e => .error e
      | .ok (s'', outs', n) => .ok (s'', outs ++ outs', n + 1)

/-- Outcome of running the drone main loop for a bounded number of loop
iterations: the loop returned, the thread died on a panic, or the loop is
still going after the given number of iterations. -/
inductive RunOutcome
  | returns (s : RustableDrone) (outs : List Output) (serviced : Nat)
  | panics (e : Panic)
  | runningStill (s : RustableDrone) (outs : List Output) (serviced : Nat)
deriving Repr, DecidableEq

/-- True exactly when the loop returned. -/
def RunOutcome.isReturns : RunOutcome → Bool
  | .returns _ _ _ => true
  | _ => false

/-- drone.rs RustableDrone::run, lines 58 to 80, entered with the crash latch
already set and a bounded iteration fuel.  Each fuel step is one iteration of
the outer Rust loop.  When the latch is set and the await setting is false
the loop returns at once; when the await setting is true the loop drains the
buffered queue and then iterates again (the source has no return after the
inner while loop).  No further packets arrive in this model, so later
iterations drain an empty queue.  A state without the latch set waits on the
two inlets, which is outside this model, so it is reported as still
running. -/
def runFromCrash : Nat → RustableDrone → List Bool → List Packet → RunOutcome
  | 0, s, _, _ => .runningStill s [] 0
  | fuel + 1, s, rolls, queue =>
    if s.has_to_crash then
      if !s.settings.await_queued_packets_on_crash then .returns s [] 0
      else
        match s.drain rolls queue with
        | .error e => .panics e
        | .ok (s', outs, n) =>
          match runFromCrash fuel s' [] [] with
          | .returns s'' outs' m => .returns s'' (outs ++ outs') (n + m)
          | .panics e => .panics e
          | .runningStill s'' outs' m => .runningStill s'' (outs ++ outs') (n + m)
    else .runningStill s [] 0

end RustableDrone
/-- Fixture: a fragment payload. -/
def fr0 : Fragment := { fragment_index := 5, total_n_fragments := 1, length := 3, data := [9, 9, 9] }

/-- Fixture: an ack payload. -/
def ak0 : Ack := { fragment_index := 4 }

/-- Fixture: a nack payload. -/
def nk0 : Nack := { fragment_index := 0, nack_type := .Dropped }

/-- Fixture: a drone with id 2 wired to neighbors 1 and 3. -/
def dA : RustableDrone :=
  { id := 2, packet_send := [1, 3], settings := DroneSettings.default,
    filter := PacketFilter.default, flood_ids := [], has_to_crash := false }

/-- Fixture: a drone with the single neighbor 1. -/
def dB : RustableDrone := { dA with packet_send := [1] }

/-- Fixture: a drone whose empty WhiteList filter rejects every sender. -/
def dW : RustableDrone :=
  { dA with packet_send := [1, 2], filter := { list := [], filter_type := .WhiteList } }

/-- Fixture: a drone that already saw flood id 42. -/
def dSeen : RustableDrone := { dA with flood_ids := [42] }

/-- Fixture: a crashing drone that awaits queued packets. -/
def dCrashAwait : RustableDrone := { dA with has_to_crash := true }

/-- Fixture: a crashing drone with the await setting off. -/
def dCrashNow : RustableDrone :=
  { dA with
    has_to_crash := true
    settings := { DroneSettings.default with await_queued_packets_on_crash := false } }

/-- Fixture: a fragment packet in mid-route. -/
def pFrag : Packet :=
  { routing_header := { hop_index := 1, hops := [1, 2, 3] }, session_id := 7,
    pack_type := .MsgFragment fr0 }

/-- Fixture: a nack packet at its last hop. -/
def pNackLast : Packet :=
  { routing_header := { hop_index := 1, hops := [1, 2] }, session_id := 7,
    pack_type := .Nack nk0 }

/-- Fixture: a packet whose cursor sits at the hops length boundary. -/
def pBoundary : Packet :=
  { routing_header := { hop_index := 2, hops := [1, 3] }, session_id := 7,
    pack_type := .Ack ak0 }

/-- Fixture: a flood response packet whose cursor equals the hops length. -/
def pFloodResLast : Packet :=
  { routing_header := { hop_index := 2, hops := [1, 3] }, session_id := 7,
    pack_type := .FloodResponse { flood_id := 1, path_trace := [] } }

/-- Fixture: a packet with cursor 0, rejected by validation. -/
def pBad0 : Packet :=
  { routing_header := { hop_index := 0, hops := [1, 2] }, session_id := 7,
    pack_type := .Nack nk0 }

/-- Fixture: a packet with cursor beyond the hops length. -/
def pBadBig : Packet :=
  { routing_header := { hop_index := 3, hops := [1, 2] }, session_id := 7,
    pack_type := .Nack nk0 }

/-- Fixture: a fragment packet with cursor at the hops length boundary. -/
def pC3x : Packet :=
  { routing_header := { hop_index := 2, hops := [1, 2] }, session_id := 7,
    pack_type := .MsgFragment fr0 }

/-- Fixture: a flood request arriving from node 1. -/
def rq1 : FloodRequest := { flood_id := 42, initiator_id := 1, path_trace := [(1, .Client)] }

/-- Fixture: the same flood id arriving from node 3. -/
def rq2 : FloodRequest := { flood_id := 42, initiator_id := 1, path_trace := [(3, .Drone)] }

/-- Fixture: a flood request with an empty path trace. -/
def rqEmpty : FloodRequest := { flood_id := 5, initiator_id := 1, path_trace := [] }

/-- Fixture: the same flood id arriving from the unwired node 9. -/
def rqFrom9 : FloodRequest := { flood_id := 42, initiator_id := 1, path_trace := [(9, .Drone)] }

/-- Fixture: a carrier packet for flood requests. -/
def pFloodCarrier : Packet :=
  { routing_header := { hop_index := 0, hops := [] }, session_id := 9,
    pack_type := .FloodRequest rq1 }

/-- Fixture: a second carrier packet for flood requests. -/
def pFlood2 : Packet :=
  { routing_header := { hop_index := 0, hops := [] }, session_id := 11,
    pack_type := .FloodRequest rq2 }

/-- Fixture: the shortcut nack built for pNackLast. -/
def qShort : Packet :=
  { routing_header := { hop_index := 0, hops := [2, 1] }, session_id := 7,
    pack_type := .Nack { fragment_index := 0, nack_type := .DestinationIsDrone } }

/-- Fixture: the forwarded copy of pFrag. -/
def qFwd : Packet :=
  { routing_header := { hop_index := 2, hops := [1, 2, 3] }, session_id := 7,
    pack_type := .MsgFragment fr0 }


namespace RustableDrone

/-- Every panic of the fragment handler is one of its own five panic sites, never a validation panic. -/
lemma msg_fragment_handler_error_kinds (s : RustableDrone) (roll : Bool) (p : Packet)
    (f : Fragment) (e : Panic) (h : s.msg_fragment_handler roll p f = .error e) :
    e = .prevHopUnwrap ∨ e = .nextHopUnwrap ∨ e = .hopsIndexPanic ∨
      e = .noNackChannel ∨ e = .channelUnwrap := by
  unfold msg_fragment_handler send_nack at h
  repeat' split at h
  all_goals simp_all [Except.map]

/-- Every panic of the nack handler is one of its own panic sites, never a validation panic. -/
lemma nack_handler_error_kinds (s : RustableDrone) (p : Packet)
    (n : Nack) (e : Panic) (h : s.nack_handler p n = .error e) :
    e = .prevHopUnwrap ∨ e = .nextHopUnwrap ∨ e = .hopsIndexPanic ∨
      e = .noNackChannel := by
  unfold nack_handler at h
  repeat' split at h
  all_goals simp_all

/-- Every panic of the ack handler is one of its own panic sites, never a validation panic. -/
lemma ack_handler_error_kinds (s : RustableDrone) (p : Packet)
    (a : Ack) (e : Panic) (h : s.ack_handler p a = .error e) :
    e = .hopsIndexPanic ∨ e = .noNackChannel := by
  unfold ack_handler at h
  repeat' split at h
  all_goals simp_all

/-- Every panic of the flood response handler is one of its own panic sites, never a validation panic. -/
lemma flood_res_handler_error_kinds (s : RustableDrone) (p : Packet)
    (e : Panic) (h : s.flood_res_handler p = .error e) :
    e = .hopsIndexPanic ∨ e = .noNackChannel := by
  unfold flood_res_handler at h
  repeat' split at h
  all_goals simp_all

/-- Every panic of the flood request handler is one of its own panic sites, never a validation panic. -/
lemma flood_req_handler_error_kinds (s : RustableDrone) (p : Packet)
    (r : FloodRequest) (e : Panic) (h : s.flood_req_handler p r = .error e) :
    e = .emptyTraceIndex ∨ e = .channelUnwrap := by
  unfold flood_req_handler at h
  repeat' split at h
  all_goals simp_all
  all_goals repeat' split at h
  all_goals simp_all

end RustableDrone

/-- Mapping over an Except preserves the error case. -/
lemma except_map_error {α β γ : Type} (f : α → β) (x : Except γ α) (e : γ) :
    x.map f = .error e ↔ x = .error e := by
  cases x <;> simp [Except.map]

/-- Mapping over an Except yields ok exactly when the argument was ok. -/
lemma except_map_ok {α β γ : Type} (f : α → β) (x : Except γ α) (b : β) :
    x.map f = .ok b ↔ ∃ a, x = .ok a ∧ b = f a := by
  cases x with
  | error e => simp [Except.map]
  | ok a => simp [Except.map, eq_comm]

namespace RustableDrone

/-- The flood request handler changes at most the seen flood id list. -/
lemma flood_req_handler_state (s : RustableDrone) (p : Packet) (r : FloodRequest)
    (s' : RustableDrone) (outs : List Output)
    (h : s.flood_req_handler p r = .ok (s', outs)) :
    s'.id = s.id ∧ s'.packet_send = s.packet_send ∧ s'.settings = s.settings ∧
      s'.filter = s.filter ∧ s'.has_to_crash = s.has_to_crash := by
  unfold flood_req_handler at h
  repeat' split at h
  all_goals simp_all
  all_goals repeat' split at h
  all_goals simp_all
  all_goals (obtain ⟨rfl, rfl⟩ := h; simp)

/-- The packet handler changes at most the seen flood id list. -/
lemma packet_handler_state (s : RustableDrone) (roll : Bool) (p : Packet)
    (s' : RustableDrone) (outs : List Output)
    (h : s.packet_handler roll p = .ok (s', outs)) :
    s'.id = s.id ∧ s'.packet_send = s.packet_send ∧ s'.settings = s.settings ∧
      s'.filter = s.filter ∧ s'.has_to_crash = s.has_to_crash := by
  unfold packet_handler at h
  repeat' split at h
  all_goals simp_all [except_map_ok]
  exact flood_req_handler_state _ _ _ _ _ h

end RustableDrone

namespace RustableDrone

/-- Draining the queue preserves the settings and the crash latch and services every buffered packet. -/
lemma drain_state (s : RustableDrone) (rolls : List Bool) (queue : List Packet)
    (s' : RustableDrone) (outs : List Output) (n : Nat)
    (h : s.drain rolls queue = .ok (s', outs, n)) :
    s'.settings = s.settings ∧ s'.has_to_crash = s.has_to_crash ∧ n = queue.length := by
  induction queue generalizing s rolls outs n with
  | nil =>
    unfold drain at h
    simp_all
  | cons p rest ih =>
    unfold drain at h
    cases hph : s.packet_handler (rolls.headD false) p with
    | error e => rw [hph] at h; simp at h
    | ok v =>
      rw [hph] at h
      obtain ⟨s1, outs1⟩ := v
      dsimp only at h
      cases hd : drain s1 rolls.tail rest with
      | error e => rw [hd] at h; simp at h
      | ok w =>
        obtain ⟨s2, outs2, m⟩ := w
        rw [hd] at h
        simp only [Except.ok.injEq, Prod.mk.injEq] at h
        obtain ⟨rfl, rfl, rfl⟩ := h
        obtain ⟨-, -, hset, -, hcrash⟩ := packet_handler_state _ _ _ _ _ hph
        obtain ⟨hset2, hcrash2, hm⟩ := ih s1 rolls.tail outs2 m hd
        refine ⟨hset2.trans hset, hcrash2.trans hcrash, by simp [hm]⟩

/-- With the crash latch and the await setting both set, the run loop never returns, for any iteration bound. -/
lemma runFromCrash_no_return (fuel : Nat) (s : RustableDrone) (rolls : List Bool)
    (queue : List Packet) (hc : s.has_to_crash = true)
    (ha : s.settings.await_queued_packets_on_crash = true) :
    (s.runFromCrash fuel rolls queue).isReturns = false := by
  induction fuel generalizing s rolls queue with
  | zero => simp [runFromCrash, RunOutcome.isReturns]
  | succ fuel ih =>
    unfold runFromCrash
    rw [hc, ha]
    simp only [Bool.not_true, if_true, if_false]
    cases hd : s.drain rolls queue with
    | error e => simp [RunOutcome.isReturns]
    | ok w =>
      obtain ⟨s1, outs1, n1⟩ := w
      obtain ⟨hset, hcrash, -⟩ := drain_state _ _ _ _ _ _ hd
      have ih1 := ih s1 [] [] (hcrash.trans hc) (by rw [hset, ha])
      cases hr : s1.runFromCrash fuel [] [] with
      | returns s2 outs2 m => rw [hr] at ih1; simp [RunOutcome.isReturns] at ih1
      | panics e => simp [hr, RunOutcome.isReturns]
      | runningStill s2 outs2 m => simp [hr, RunOutcome.isReturns]

end RustableDrone

namespace RustableDrone

/-- With the cursor in bounds, the packet handler is exactly the dispatch on the payload kind. -/
lemma packet_handler_valid (s : RustableDrone) (roll : Bool) (p : Packet)
    (h1 : 1 ≤ p.routing_header.hop_index)
    (h2 : p.routing_header.hop_index ≤ p.routing_header.hops.length) :
    s.packet_handler roll p =
      match p.pack_type with
      | .Nack n => (s.nack_handler p n).map (fun outs => (s, outs))
      | .Ack a => (s.ack_handler p a).map (fun outs => (s, outs))
      | .MsgFragment f => (s.msg_fragment_handler roll p f).map (fun outs => (s, outs))
      | .FloodRequest r => s.flood_req_handler p r
      | .FloodResponse _ => (s.flood_res_handler p).map (fun outs => (s, outs)) := by
  have hs : ¬ (p.routing_header.hop_index < 1) := by omega
  have hb : ¬ (p.routing_header.hops.length < p.routing_header.hop_index) := by omega
  unfold packet_handler
  simp [hs, hb]

/-- C8: every inbound non-FloodRequest packet is validated first: a cursor of 0 aborts as hopIndexTooSmall and a cursor beyond the hops length as hopIndexTooBig, before any handler runs, while a cursor in 1..len(hops) is never rejected by this validation. -/
theorem C8_header_validation (s : RustableDrone) (roll : Bool) (p : Packet)
    (hnf : p.isFloodReq = false) :
    (p.routing_header.hop_index < 1 →
      s.packet_handler roll p = .error .hopIndexTooSmall) ∧
    (1 ≤ p.routing_header.hop_index →
      p.routing_header.hops.length < p.routing_header.hop_index →
      s.packet_handler roll p = .error .hopIndexTooBig) ∧
    (1 ≤ p.routing_header.hop_index →
      p.routing_header.hop_index ≤ p.routing_header.hops.length →
      s.packet_handler roll p ≠ .error .hopIndexTooSmall ∧
      s.packet_handler roll p ≠ .error .hopIndexTooBig) := by
  refine ⟨?_, ?_, ?_⟩
  · intro h0
    unfold packet_handler
    simp [h0, hnf]
  · intro h1 hbig
    have hs : ¬ (p.routing_header.hop_index < 1) := by omega
    unfold packet_handler
    simp [hs, hbig, hnf]
  · intro h1 h2
    rw [packet_handler_valid s roll p h1 h2]
    cases hp : p.pack_type with
    | Nack n =>
      constructor <;> intro hcontra <;>
        (rw [except_map_error] at hcontra;
         rcases nack_handler_error_kinds s p n _ hcontra with h | h | h | h <;> simp_all)
    | Ack a =>
      constructor <;> intro hcontra <;>
        (rw [except_map_error] at hcontra;
         rcases ack_handler_error_kinds s p a _ hcontra with h | h <;> simp_all)
    | MsgFragment f =>
      constructor <;> intro hcontra <;>
        (rw [except_map_error] at hcontra;
         rcases msg_fragment_handler_error_kinds s roll p f _ hcontra with h | h | h | h | h <;> simp_all)
    | FloodRequest r =>
      simp [Packet.isFloodReq, hp] at hnf
    | FloodResponse r =>
      constructor <;> intro hcontra <;>
        (rw [except_map_error] at hcontra;
         rcases flood_res_handler_error_kinds s p _ hcontra with h | h <;> simp_all)

end RustableDrone

namespace RustableDrone

/-- C9: at the admitted boundary cursor hop_index = len(hops), the Fragment and Nack handlers abort unwrapping the missing next hop and the Ack handler aborts indexing hops out of bounds, even though the reverse channel exists and no drop, filter, routing or recipient condition applies; only the FloodResponse handler processes this value, reporting DestinationIsDrone to the controller. -/
theorem C9_upper_boundary (s : RustableDrone) (roll : Bool) (p : Packet)
    (f : Fragment) (a : Ack) (n : Nack) (from_ : NodeId)
    (hlen : 1 ≤ p.routing_header.hops.length)
    (hidx : p.routing_header.hop_index = p.routing_header.hops.length)
    (hfrom : p.routing_header.hops[p.routing_header.hop_index - 1]? = some from_)
    (hch : from_ ∈ s.packet_send) :
    s.msg_fragment_handler roll p f = .error .nextHopUnwrap ∧
    s.nack_handler p n = .error .nextHopUnwrap ∧
    s.ack_handler p a = .error .hopsIndexPanic ∧
    s.flood_res_handler p = .ok [send_nack_through_controller p u64MAX .DestinationIsDrone] := by
  have h0 : ¬ (p.routing_header.hop_index = 0) := by omega
  have hprev : p.routing_header.previous_hop = some from_ := by
    unfold SourceRoutingHeader.previous_hop
    simp [h0, hfrom]
  have hlast : p.routing_header.is_last_hop = false := by
    simp [SourceRoutingHeader.is_last_hop, hidx]
  have hnext : p.routing_header.hops[p.routing_header.hop_index + 1]? = none := by
    rw [hidx]
    exact List.getElem?_eq_none (by omega)
  have hnext' : p.routing_header.next_hop = none := hnext
  refine ⟨?_, ?_, ?_, ?_⟩
  · unfold msg_fragment_handler
    simp [hprev, hlast, hnext']
  · unfold nack_handler
    simp [hprev, hlast, hnext']
  · unfold ack_handler
    simp [h0, hfrom, hlast, hnext]
  · have hne : p.routing_header.hops ≠ [] := by
      intro hcon
      rw [hcon] at hlen
      simp at hlen
    have hfrom2 := hfrom
    rw [hidx] at hfrom2
    unfold flood_res_handler
    simp [h0, hfrom2, hidx, hch, hne]

/-- C10: a FloodRequest with an empty path_trace aborts the node reading the last trace entry; in the already-seen and single-neighbor branches the node aborts when it has no outbound channel to the last-trace sender. -/
theorem C10_flood_req_defensive (s : RustableDrone) (p : Packet) (r : FloodRequest) :
    (r.path_trace = [] → s.flood_req_handler p r = .error .emptyTraceIndex) ∧
    (∀ from_ nt, r.path_trace.getLast? = some (from_, nt) →
      from_ ∉ s.packet_send →
      r.flood_id ∈ s.flood_ids →
      s.flood_req_handler p r = .error .channelUnwrap) ∧
    (∀ from_ nt, r.path_trace.getLast? = some (from_, nt) →
      from_ ∉ s.packet_send →
      r.flood_id ∉ s.flood_ids →
      s.packet_send.length = 1 →
      s.flood_req_handler p r = .error .channelUnwrap) := by
  refine ⟨?_, ?_, ?_⟩
  · intro hnil
    unfold flood_req_handler
    simp [hnil]
  · intro from_ nt hlast hch hseen
    unfold flood_req_handler
    simp [hlast, hch, hseen]
  · intro from_ nt hlast hch hseen hone
    unfold flood_req_handler
    simp [hlast, hch, hseen, hone]

end RustableDrone

namespace RustableDrone

/-- C6: the FloodResponse handler treats hop_index = len(hops) as its last-hop condition and, on last hop, routing error, or unexpected recipient, reports the failure to the controller as a shortcut nack rather than a nack along the path; at hop_index + 1 = len(hops), the last-hop condition of Fragment/Ack/Nack (where the Nack handler shortcuts DestinationIsDrone), the FloodResponse handler instead panics indexing the missing next hop. -/
theorem C6_flood_res_last_hop (s : RustableDrone) (p : Packet) (n : Nack)
    (from_ : NodeId)
    (h1 : 1 ≤ p.routing_header.hop_index)
    (hfrom : p.routing_header.hops[p.routing_header.hop_index - 1]? = some from_)
    (hch : from_ ∈ s.packet_send) :
    (p.routing_header.hop_index = p.routing_header.hops.length →
      s.flood_res_handler p = .ok [send_nack_through_controller p u64MAX .DestinationIsDrone]) ∧
    (∀ to_, p.routing_header.hops[p.routing_header.hop_index + 1]? = some to_ →
      to_ ∉ s.packet_send →
      p.routing_header.hop_index ≠ p.routing_header.hops.length →
      s.flood_res_handler p = .ok [send_nack_through_controller p u64MAX (.ErrorInRouting to_)]) ∧
    (∀ to_ cur, p.routing_header.hops[p.routing_header.hop_index + 1]? = some to_ →
      to_ ∈ s.packet_send →
      p.routing_header.hop_index ≠ p.routing_header.hops.length →
      p.routing_header.hops[p.routing_header.hop_index]? = some cur → cur ≠ s.id →
      s.flood_res_handler p = .ok [send_nack_through_controller p u64MAX (.UnexpectedRecipient s.id)]) ∧
    (p.routing_header.hop_index + 1 = p.routing_header.hops.length →
      s.flood_res_handler p = .error .hopsIndexPanic) ∧
    (p.routing_header.hop_index + 1 = p.routing_header.hops.length →
      s.nack_handler p n = .ok [send_nack_through_controller p n.fragment_index .DestinationIsDrone]) := by
  have h0 : ¬ (p.routing_header.hop_index = 0) := by omega
  refine ⟨?_, ?_, ?_, ?_, ?_⟩
  · intro hidx
    have hne : p.routing_header.hops ≠ [] := by
      intro hcon
      rw [hcon] at hidx
      simp at hidx
      omega
    have hfrom2 := hfrom
    rw [hidx] at hfrom2
    unfold flood_res_handler
    simp [h0, hfrom2, hidx, hch, hne]
  · intro to_ hto hnoch hnl
    unfold flood_res_handler
    simp [h0, hfrom, hto, hnl, hnoch, hch]
  · intro to_ cur hto htoch hnl hcur hne
    unfold flood_res_handler
    simp [h0, hfrom, hto, hnl, htoch, hcur, hne, hch]
  · intro hplus
    have hnl : p.routing_header.hop_index ≠ p.routing_header.hops.length := by omega
    have hto : p.routing_header.hops[p.routing_header.hop_index + 1]? = none := by
      exact List.getElem?_eq_none (by omega)
    unfold flood_res_handler
    simp [h0, hfrom, hnl, hto]
  · intro hplus
    have hprev : p.routing_header.previous_hop = some from_ := by
      unfold SourceRoutingHeader.previous_hop
      simp [h0, hfrom]
    have hlast : p.routing_header.is_last_hop = true := by
      simp [SourceRoutingHeader.is_last_hop, hplus]
    unfold nack_handler
    simp [hprev, hlast, hch]

/-- C7: a node whose only neighbor is the sender of a fresh FloodRequest replies at once with a FloodResponse carrying the trace with itself appended, routed over the reversed trace with cursor 1, and leaves the seen flood ids untouched. -/
theorem C7_dead_end_flood (s : RustableDrone) (p : Packet) (r : FloodRequest)
    (from_ : NodeId) (nt : NodeType)
    (hlast : r.path_trace.getLast? = some (from_, nt))
    (hnew : r.flood_id ∉ s.flood_ids)
    (hn : s.packet_send = [from_]) :
    s.flood_req_handler p r = .ok (s,
      [.send from_
        { routing_header :=
            { hop_index := 1
              hops := ((r.path_trace ++ [(s.id, NodeType.Drone)]).map Prod.fst).reverse }
          session_id := p.session_id
          pack_type := .FloodResponse
            { flood_id := r.flood_id
              path_trace := r.path_trace ++ [(s.id, NodeType.Drone)] } }]) := by
  unfold flood_req_handler
  simp [hlast, hnew, hn]

/-- C5: flood handling is idempotent per flood id: with more than one neighbor, the first receipt records the id and fans the request out, with the node appended to the trace and an empty header, to every neighbor except the sender; a second receipt of the same id answers with exactly one FloodResponse and leaves the state unchanged, so the seen set grows by exactly one entry total. -/
theorem C5_flood_idempotent (s : RustableDrone) (p1 p2 : Packet) (r1 r2 : FloodRequest)
    (from1 from2 : NodeId) (nt1 nt2 : NodeType)
    (hl1 : r1.path_trace.getLast? = some (from1, nt1))
    (hl2 : r2.path_trace.getLast? = some (from2, nt2))
    (hfid : r2.flood_id = r1.flood_id)
    (hnew : r1.flood_id ∉ s.flood_ids)
    (hn : 1 < s.packet_send.length)
    (hch2 : from2 ∈ s.packet_send) :
    s.flood_req_handler p1 r1 = .ok ({ s with flood_ids := s.flood_ids ++ [r1.flood_id] },
      (s.packet_send.filter (fun k => k != from1)).map
        (fun k => .send k
          { routing_header := { hop_index := 0, hops := [] }
            session_id := p1.session_id
            pack_type := .FloodRequest
              { r1 with path_trace := r1.path_trace ++ [(s.id, NodeType.Drone)] } })) ∧
    (s.flood_ids ++ [r1.flood_id]).length = s.flood_ids.length + 1 ∧
    ({ s with flood_ids := s.flood_ids ++ [r1.flood_id] } : RustableDrone).flood_req_handler p2 r2 =
      .ok ({ s with flood_ids := s.flood_ids ++ [r1.flood_id] },
        [.send from2
          { routing_header :=
              { hop_index := 1
                hops := ((r2.path_trace ++ [(s.id, NodeType.Drone)]).map Prod.fst).reverse }
            session_id := p2.session_id
            pack_type := .FloodResponse
              { flood_id := r2.flood_id
                path_trace := r2.path_trace ++ [(s.id, NodeType.Drone)] } }]) := by
  refine ⟨?_, by simp, ?_⟩
  · have hone : s.packet_send.length ≠ 1 := by omega
    unfold flood_req_handler
    simp [hl1, hnew, hone]
  · have hseen : r2.flood_id ∈ s.flood_ids ++ [r1.flood_id] := by
      rw [hfid]
      simp
    unfold flood_req_handler
    simp [hl2, hseen, hch2]

end RustableDrone


namespace RustableDrone

/-- C4: every Fragment, Ack, Nack, or FloodResponse packet successfully forwarded to a neighbor carries hop_index advanced by one with the hops list and the session id unchanged. -/
theorem C4_cursor_advance (s : RustableDrone) (roll : Bool) (p : Packet) :
    (∀ f outs, s.msg_fragment_handler roll p f = .ok outs →
      ∀ d q f', Output.send d q ∈ outs → q.pack_type = .MsgFragment f' →
        q.routing_header.hop_index = p.routing_header.hop_index + 1 ∧
        q.routing_header.hops = p.routing_header.hops ∧
        q.session_id = p.session_id) ∧
    (∀ n outs, s.nack_handler p n = .ok outs →
      ∀ d q, Output.send d q ∈ outs →
        q.routing_header.hop_index = p.routing_header.hop_index + 1 ∧
        q.routing_header.hops = p.routing_header.hops ∧
        q.session_id = p.session_id) ∧
    (∀ a outs, s.ack_handler p a = .ok outs →
      ∀ d q, Output.send d q ∈ outs →
        q.routing_header.hop_index = p.routing_header.hop_index + 1 ∧
        q.routing_header.hops = p.routing_header.hops ∧
        q.session_id = p.session_id) ∧
    (∀ outs, s.flood_res_handler p = .ok outs →
      ∀ d q, Output.send d q ∈ outs →
        q.routing_header.hop_index = p.routing_header.hop_index + 1 ∧
        q.routing_header.hops = p.routing_header.hops ∧
        q.session_id = p.session_id) := by
  refine ⟨?_, ?_, ?_, ?_⟩
  · intro f outs h d q f' hmem hq
    unfold msg_fragment_handler send_nack at h
    repeat' split at h
    all_goals try simp only [Except.map] at h
    all_goals cases h
    all_goals simp_all
  · intro n outs h d q hmem
    unfold nack_handler send_nack_through_controller at h
    repeat' split at h
    all_goals cases h
    all_goals simp_all
  · intro a outs h d q hmem
    unfold ack_handler send_nack_through_controller at h
    repeat' split at h
    all_goals cases h
    all_goals simp_all
  · intro outs h d q hmem
    unfold flood_res_handler send_nack_through_controller at h
    repeat' split at h
    all_goals cases h
    all_goals simp_all

end RustableDrone

namespace RustableDrone

/-- C1 (code bug evidence): with the crash latch set, the run loop returns at once with zero packets serviced when the await setting is false, but with the setting true it never returns for any iteration bound: the source has no return after the drain loop, so the drone polls forever instead of terminating. -/
theorem C1_crash_loop (s : RustableDrone) (rolls : List Bool) (queue : List Packet)
    (hc : s.has_to_crash = true) :
    (s.settings.await_queued_packets_on_crash = false →
      ∀ fuel, s.runFromCrash (fuel + 1) rolls queue = .returns s [] 0) ∧
    (s.settings.await_queued_packets_on_crash = true →
      ∀ fuel, (s.runFromCrash fuel rolls queue).isReturns = false) := by
  constructor
  · intro hflag fuel
    unfold runFromCrash
    rw [hc, hflag]
    simp
  · intro hflag fuel
    exact runFromCrash_no_return fuel s rolls queue hc hflag

/-- C2 (amended): every failure nack sent back by the Fragment handler is addressed with the reversed header, traveled hops reversed with cursor 1, and the failing packet session id; every shortcut nack from the Nack, Ack, and FloodResponse handlers carries the reversed hops with cursor 0, get_reversed without the bump, and the failing packet session id. -/
theorem C2_nack_addressing (s : RustableDrone) (roll : Bool) (p : Packet) :
    (∀ f outs, s.msg_fragment_handler roll p f = .ok outs →
      ∀ d q, Output.send d q ∈ outs → (∃ nk, q.pack_type = .Nack nk) →
        q.routing_header = reversedHeader p.routing_header ∧
        q.session_id = p.session_id) ∧
    (∀ n outs, s.nack_handler p n = .ok outs →
      ∀ q, Output.shortcut q ∈ outs →
        q.routing_header = p.routing_header.get_reversed ∧
        q.session_id = p.session_id) ∧
    (∀ a outs, s.ack_handler p a = .ok outs →
      ∀ q, Output.shortcut q ∈ outs →
        q.routing_header = p.routing_header.get_reversed ∧
        q.session_id = p.session_id) ∧
    (∀ outs, s.flood_res_handler p = .ok outs →
      ∀ q, Output.shortcut q ∈ outs →
        q.routing_header = p.routing_header.get_reversed ∧
        q.session_id = p.session_id) := by
  refine ⟨?_, ?_, ?_, ?_⟩
  · intro f outs h d q hmem hnk
    unfold msg_fragment_handler send_nack at h
    repeat' split at h
    all_goals try simp only [Except.map] at h
    all_goals cases h
    all_goals simp_all [reversedHeader, SourceRoutingHeader.get_reversed]
  · intro n outs h q hmem
    unfold nack_handler send_nack_through_controller at h
    repeat' split at h
    all_goals cases h
    all_goals simp_all
  · intro a outs h q hmem
    unfold ack_handler send_nack_through_controller at h
    repeat' split at h
    all_goals cases h
    all_goals simp_all
  · intro outs h q hmem
    unfold flood_res_handler send_nack_through_controller at h
    repeat' split at h
    all_goals cases h
    all_goals simp_all

/-- C3 (amended): for a Fragment whose header admits a next hop, hop_index + 1 < len(hops), a successful drop roll yields Nack Dropped to the previous hop even when the sender is filtered, and a Fragment rejected only by the filter yields no nack unless send_nack_on_filtered_packet is set, in which case Nack Dropped. -/
theorem C3_filter_precedence (s : RustableDrone) (roll : Bool) (p : Packet)
    (f : Fragment) (from_ : NodeId)
    (h1 : 1 ≤ p.routing_header.hop_index)
    (h2 : p.routing_header.hop_index + 1 < p.routing_header.hops.length)
    (hfrom : p.routing_header.hops[p.routing_header.hop_index - 1]? = some from_)
    (hch : from_ ∈ s.packet_send) :
    (roll = true →
      s.msg_fragment_handler roll p f = .ok [.send from_
        { routing_header := reversedHeader p.routing_header
          session_id := p.session_id
          pack_type := .Nack { fragment_index := f.fragment_index, nack_type := .Dropped } }]) ∧
    (roll = false → s.settings.filter_packets = true → s.filter.is_allowed from_ = false →
      (s.settings.send_nack_on_filtered_packet = true →
        s.msg_fragment_handler roll p f = .ok [.send from_
          { routing_header := reversedHeader p.routing_header
            session_id := p.session_id
            pack_type := .Nack { fragment_index := f.fragment_index, nack_type := .Dropped } }]) ∧
      (s.settings.send_nack_on_filtered_packet = false →
        s.msg_fragment_handler roll p f = .ok [])) := by
  have h0 : ¬ (p.routing_header.hop_index = 0) := by omega
  have hprev : p.routing_header.previous_hop = some from_ := by
    unfold SourceRoutingHeader.previous_hop
    simp [h0, hfrom]
  have hlast : p.routing_header.is_last_hop = false := by
    simp [SourceRoutingHeader.is_last_hop]
    omega
  have hnext : p.routing_header.next_hop = some (p.routing_header.hops.get
      ⟨p.routing_header.hop_index + 1, h2⟩) := by
    unfold SourceRoutingHeader.next_hop
    exact List.getElem?_eq_getElem h2
  constructor
  · intro hroll
    subst hroll
    unfold msg_fragment_handler send_nack
    simp [hprev, hlast, hnext, hch, reversedHeader, SourceRoutingHeader.get_reversed,
      Except.map]
  · intro hroll hfp hallow
    subst hroll
    constructor
    · intro hsn
      unfold msg_fragment_handler send_nack
      simp [hprev, hlast, hnext, hch, hfp, hallow, hsn, reversedHeader,
        SourceRoutingHeader.get_reversed, Except.map]
    · intro hsn
      unfold msg_fragment_handler
      simp [hprev, hlast, hnext, hfp, hallow, hsn]

end RustableDrone

namespace RustableDrone

/-- C2 counterexample: the shortcut nack built for a concrete terminal Nack packet carries cursor 0, not the cursor 1 the claim asserts for the reversed header. -/
theorem C2_counterexample :
    dA.nack_handler pNackLast nk0 = .ok [.shortcut qShort] ∧
    qShort.routing_header ≠ reversedHeader pNackLast.routing_header := by
  constructor
  · rfl
  · decide

/-- C3 counterexample: a concrete Fragment not at its last hop, with a filtered sender and an existing reverse channel, makes the handler panic unwrapping the missing next hop on a successful drop roll instead of emitting Nack Dropped. -/
theorem C3_counterexample :
    pC3x.routing_header.is_last_hop = false ∧
    (2 : NodeId) ∈ dW.packet_send ∧
    dW.filter.is_allowed 2 = false ∧
    dW.msg_fragment_handler true pC3x fr0 = .error .nextHopUnwrap := by
  refine ⟨rfl, by decide, rfl, rfl⟩

/-- C1 witness: the claim theorem applied at concrete crashing drones. -/
theorem C1_crash_loop_witness :
    dCrashNow.runFromCrash 1 [] [] = .returns dCrashNow [] 0 ∧
    (dCrashAwait.runFromCrash 5 [] []).isReturns = false :=
  ⟨(C1_crash_loop dCrashNow [] [] rfl).1 rfl 0,
   (C1_crash_loop dCrashAwait [] [] rfl).2 rfl 5⟩

/-- C2 witness: the amended theorem applied at a concrete terminal Nack packet. -/
theorem C2_nack_addressing_witness :
    qShort.routing_header = pNackLast.routing_header.get_reversed ∧
    qShort.session_id = pNackLast.session_id :=
  (C2_nack_addressing dA false pNackLast).2.1 nk0 [.shortcut qShort] rfl qShort (by simp)

/-- C3 witness: the amended theorem applied at a concrete mid-route Fragment with a successful drop roll. -/
theorem C3_filter_precedence_witness :
    dA.msg_fragment_handler true pFrag fr0 = .ok [.send 1
      { routing_header := reversedHeader pFrag.routing_header
        session_id := pFrag.session_id
        pack_type := .Nack { fragment_index := fr0.fragment_index, nack_type := .Dropped } }] :=
  (C3_filter_precedence dA true pFrag fr0 1 (by decide) (by decide) (by decide)
    (by decide)).1 rfl

/-- C4 witness: the theorem applied at a concrete forwarded Fragment. -/
theorem C4_cursor_advance_witness :
    qFwd.routing_header.hop_index = pFrag.routing_header.hop_index + 1 ∧
    qFwd.routing_header.hops = pFrag.routing_header.hops ∧
    qFwd.session_id = pFrag.session_id :=
  (C4_cursor_advance dA false pFrag).1 fr0 [.send 3 qFwd] rfl 3 qFwd fr0 (by simp) rfl

/-- C5 witness: the theorem applied at a concrete pair of flood receipts. -/
theorem C5_flood_idempotent_witness :
    dA.flood_req_handler pFloodCarrier rq1 =
      .ok ({ dA with flood_ids := dA.flood_ids ++ [rq1.flood_id] },
        (dA.packet_send.filter (fun k => k != 1)).map
          (fun k => .send k
            { routing_header := { hop_index := 0, hops := [] }
              session_id := pFloodCarrier.session_id
              pack_type := .FloodRequest
                { rq1 with path_trace := rq1.path_trace ++ [(dA.id, NodeType.Drone)] } })) :=
  (C5_flood_idempotent dA pFloodCarrier pFlood2 rq1 rq2 1 3 .Client .Drone rfl rfl rfl
    (by decide) (by decide) (by decide)).1

/-- C6 witness: the theorem applied at a concrete FloodResponse at the boundary cursor. -/
theorem C6_flood_res_last_hop_witness :
    dA.flood_res_handler pFloodResLast =
      .ok [send_nack_through_controller pFloodResLast u64MAX .DestinationIsDrone] :=
  (C6_flood_res_last_hop dA pFloodResLast nk0 3 (by decide) (by decide) (by decide)).1 rfl

/-- C7 witness: the theorem applied at a concrete single-neighbor drone. -/
theorem C7_dead_end_flood_witness :
    dB.flood_req_handler pFloodCarrier rq1 = .ok (dB,
      [.send 1
        { routing_header :=
            { hop_index := 1
              hops := ((rq1.path_trace ++ [(dB.id, NodeType.Drone)]).map Prod.fst).reverse }
          session_id := pFloodCarrier.session_id
          pack_type := .FloodResponse
            { flood_id := rq1.flood_id
              path_trace := rq1.path_trace ++ [(dB.id, NodeType.Drone)] } }]) :=
  C7_dead_end_flood dB pFloodCarrier rq1 1 .Client rfl (by decide) rfl

/-- C8 witness: the theorem applied at concrete out-of-bounds packets. -/
theorem C8_header_validation_witness :
    dA.packet_handler false pBad0 = .error .hopIndexTooSmall ∧
    dA.packet_handler false pBadBig = .error .hopIndexTooBig :=
  ⟨(C8_header_validation dA false pBad0 rfl).1 (by decide),
   (C8_header_validation dA false pBadBig rfl).2.1 (by decide) (by decide)⟩

/-- C9 witness: the theorem applied at a concrete boundary packet. -/
theorem C9_upper_boundary_witness :
    dA.msg_fragment_handler false pBoundary fr0 = .error .nextHopUnwrap ∧
    dA.nack_handler pBoundary nk0 = .error .nextHopUnwrap ∧
    dA.ack_handler pBoundary ak0 = .error .hopsIndexPanic ∧
    dA.flood_res_handler pBoundary =
      .ok [send_nack_through_controller pBoundary u64MAX .DestinationIsDrone] :=
  C9_upper_boundary dA false pBoundary fr0 ak0 nk0 3 (by decide) (by decide) (by decide)
    (by decide)

/-- C10 witness: the theorem applied at concrete defective flood requests. -/
theorem C10_flood_req_defensive_witness :
    dA.flood_req_handler pFloodCarrier rqEmpty = .error .emptyTraceIndex ∧
    dSeen.flood_req_handler pFloodCarrier rqFrom9 = .error .channelUnwrap :=
  ⟨(C10_flood_req_defensive dA pFloodCarrier rqEmpty).1 rfl,
   (C10_flood_req_defensive dSeen pFloodCarrier rqFrom9).2.1 9 .Drone rfl (by decide)
     (by decide)⟩

end RustableDrone
